import Mathlib

/-!
Verification development for the expense-assistant extraction pipeline.

This file is a shallow embedding, in Lean 4, of the natural-language
extraction code in `llm_processor.py` and its caller `expense_tracker.py`:

* Python `dict` results become Lean structures; a key that may be absent
  becomes an `Option` field (`none` = key not present in the dict).
* Python floats carrying currency amounts and confidences become `ℚ`
  (every constant involved is an exact decimal; only exact comparisons,
  min/max clamps, additions and multiplications by powers of ten occur).
* The module-level mutable flag `_llm_available` is threaded explicitly:
  every formerly stateful method takes the flag and returns the updated
  flag together with its result.
* A live LLM call is abstracted by an `LLMOutcome` argument: the call can
  raise (connectivity / quota / timeout), or return output that parses to
  a structured value, or return output whose JSON parsing / validation
  fails (`returns none`).  Everything after that point — fallbacks,
  validation, repair, clamping — is embedded from the source.
* The regular expressions of the source are compiled by hand into
  matchers over `List Char`; value-extracting patterns get dedicated
  leftmost/greedy matchers, boolean `re.search` tests get a small
  nondeterministic matcher combinator library (a match exists iff some
  path accepts, which coincides with backtracking search).
-/

namespace ExpenseApp

/-- Python `str.lower()`, modelled character-wise. Only the ASCII range is
mapped; the Vietnamese letters appearing in this code base are already
lowercase in every keyword list and are fixed points. -/
def pyLowerChar (c : Char) : Char :=
  if c.isUpper then Char.ofNat (c.toNat + 32) else c

def pyLower (l : List Char) : List Char := l.map pyLowerChar

/-- Python whitespace (the ASCII subset relevant here), as used by
`str.strip()`, `str.split()` and the regex class `\s`. -/
def isSpaceChar (c : Char) : Bool :=
  c = ' ' || c = '\t' || c = '\n' || c = '\r' || c.toNat = 11 || c.toNat = 12

/-- Python `str.strip()`. -/
def pyStrip (l : List Char) : List Char :=
  ((l.dropWhile isSpaceChar).reverse.dropWhile isSpaceChar).reverse

/-- Word character for the regex classes `\w` / `\b`.  Python `re` is
Unicode-aware; every non-ASCII character occurring in this corpus is a
Vietnamese letter, hence a word character, so non-ASCII is treated as a
word character. -/
def isWordChar (c : Char) : Bool := c.isAlphanum || c = '_' || 128 ≤ c.toNat

def startsWithL : List Char → List Char → Bool
  | [], _ => true
  | _ :: _, [] => false
  | a :: as, b :: bs => a = b && startsWithL as bs

/-- Python `needle in hay` substring test. -/
def isSubstr (needle : List Char) : List Char → Bool
  | [] => startsWithL needle []
  | c :: t => startsWithL needle (c :: t) || isSubstr needle t

/-- `any(kw in m for kw in kws)`. -/
def containsAny (kws : List String) (m : List Char) : Bool :=
  kws.any (fun k => isSubstr k.toList m)

/-- Numeric value of a digit string (the regex groups only ever capture
ASCII digits). -/
def digitsVal (d : List Char) : ℕ := d.foldl (fun n c => 10 * n + (c.toNat - 48)) 0

/-- `\b` immediately after a word character: the next character must not be
a word character (or the string ends). -/
def wordBoundaryAfter : List Char → Bool
  | [] => true
  | c :: _ => !isWordChar c

/-- Leftmost-match driver: try a single-position matcher at every suffix,
left to right, as `re.search` does. -/
def findMapSuffix (f : List Char → Option α) : List Char → Option α
  | [] => f []
  | l@(_ :: t) =>
    match f l with
    | some v => some v
    | none => findMapSuffix f t

/-- `(\d+)k` at the current position, optionally requiring the trailing
`\b` (the source uses both variants).  The greedy `\d+` forces the whole
digit run, which must be followed by a literal `k`. -/
def matchNumK (bd : Bool) (s : List Char) : Option ℕ :=
  let d := s.takeWhile Char.isDigit
  if d.isEmpty then none
  else
    match s.drop d.length with
    | 'k' :: rest =>
      if !bd || wordBoundaryAfter rest then some (digitsVal d) else none
    | _ => none

/-- `(\d+)000\b` at the current position: the greedy group takes the digit
run minus its last three characters, which must be `000`, and the run must
end at a word boundary. -/
def matchNumThousand (s : List Char) : Option ℕ :=
  let d := s.takeWhile Char.isDigit
  if 4 ≤ d.length && d.drop (d.length - 3) = ['0', '0', '0']
      && wordBoundaryAfter (s.drop d.length)
  then some (digitsVal (d.take (d.length - 3)))
  else none

/-- Largest `1 ≤ g` such that positions `g, g+1, g+2` of `d` are `000`
(the backtracked group split for `(\d+)000` without `\b`). -/
def lastSplitAt000 (d : List Char) : ℕ → Option ℕ
  | 0 => none
  | g + 1 =>
    if (d.drop (g + 1)).take 3 = ['0', '0', '0'] then some (g + 1)
    else lastSplitAt000 d g

/-- `(\d+)000` (no `\b`; the delete-path price patterns omit it). -/
def matchNumThousandNb (s : List Char) : Option ℕ :=
  let d := s.takeWhile Char.isDigit
  (lastSplitAt000 d d.length).map (fun g => digitsVal (d.take g))

/-- `(\d+)\s*nghìn` at the current position, with optional trailing `\b`. -/
def matchNumNghin (bd : Bool) (s : List Char) : Option ℕ :=
  let d := s.takeWhile Char.isDigit
  if d.isEmpty then none
  else
    let rest := (s.drop d.length).dropWhile isSpaceChar
    if startsWithL "nghìn".toList rest
        && (!bd || wordBoundaryAfter (rest.drop "nghìn".toList.length))
    then some (digitsVal d)
    else none

/-- `(\d+)\s*triệu\b` at the current position. -/
def matchNumTrieu (s : List Char) : Option ℕ :=
  let d := s.takeWhile Char.isDigit
  if d.isEmpty then none
  else
    let rest := (s.drop d.length).dropWhile isSpaceChar
    if startsWithL "triệu".toList rest
        && wordBoundaryAfter (rest.drop "triệu".toList.length)
    then some (digitsVal d)
    else none

/-- `(\d+\.\d+)k\b` at the current position; the captured decimal as `ℚ`. -/
def matchNumFracK (s : List Char) : Option ℚ :=
  let a := s.takeWhile Char.isDigit
  if a.isEmpty then none
  else
    match s.drop a.length with
    | '.' :: r1 =>
      let b := r1.takeWhile Char.isDigit
      if b.isEmpty then none
      else
        match r1.drop b.length with
        | 'k' :: r2 =>
          if wordBoundaryAfter r2 then
            some ((digitsVal a : ℚ) + (digitsVal b : ℚ) / (10 : ℚ) ^ b.length)
          else none
        | _ => none
    | _ => none

/-- `(\d+)\s*ngày` (no `\b`), used by the statistics fallback. -/
def matchNumNgay (s : List Char) : Option ℕ :=
  let d := s.takeWhile Char.isDigit
  if d.isEmpty then none
  else
    let rest := (s.drop d.length).dropWhile isSpaceChar
    if startsWithL "ngày".toList rest then some (digitsVal d) else none

/-!  Boolean `re.search` tests.  A matcher returns the list of possible
rests after consuming a prefix of the input; a pattern matches somewhere
in the string iff some suffix admits a nonempty rest list. -/

abbrev Matcher := List Char → List (List Char)

def litM (w : String) : Matcher := fun s =>
  if startsWithL w.toList s then [s.drop w.toList.length] else []

def altM (ms : List Matcher) : Matcher := fun s => (ms.map (fun m => m s)).flatten

def seqM (m1 m2 : Matcher) : Matcher := fun s => ((m1 s).map m2).flatten

def optM (m : Matcher) : Matcher := fun s => s :: m s

/-- Rests after `\s*`. -/
def wsRests : List Char → List (List Char)
  | [] => [[]]
  | c :: cs => if isSpaceChar c then (c :: cs) :: wsRests cs else [c :: cs]

def ws0M : Matcher := wsRests

/-- Rests after `\s+`. -/
def ws1M : Matcher := fun s =>
  match s with
  | [] => []
  | c :: cs => if isSpaceChar c then wsRests cs else []

/-- Rests after `.*` (Python `.` does not cross a newline). -/
def dotRests : List Char → List (List Char)
  | [] => [[]]
  | c :: cs => if c = '\n' then [c :: cs] else (c :: cs) :: dotRests cs

def dotM : Matcher := dotRests

/-- Rests after `\d+`. -/
def digitsRests : List Char → List (List Char)
  | [] => []
  | c :: cs => if c.isDigit then cs :: digitsRests cs else []

def digits1M : Matcher := digitsRests

/-- Rests after a single `\d`. -/
def digit1M : Matcher := fun s =>
  match s with
  | c :: cs => if c.isDigit then [cs] else []
  | [] => []

/-- Rests after `\w+`. -/
def wordRests : List Char → List (List Char)
  | [] => []
  | c :: cs => if isWordChar c then cs :: wordRests cs else []

def word1M : Matcher := wordRests

/-- `\b` after a word character, as a matcher. -/
def wbM : Matcher := fun s => if wordBoundaryAfter s then [s] else []

def searchM (m : Matcher) (s : List Char) : Bool :=
  s.tails.any (fun t => !(m t).isEmpty)

/-- `a\s*b\s*…`: literals joined by `\s*`. -/
def phraseM : List String → Matcher
  | [] => fun s => [s]
  | [w] => litM w
  | w :: ws => seqM (litM w) (seqM ws0M (phraseM ws))

/-! `QueryAnalyzer._fallback_intent_analysis` (llm_processor.py:188-270). -/

/-- The three `delete_patterns`. -/
def deleteIntentHit (m : List Char) : Bool :=
  searchM (altM [litM "xóa", litM "xoá", litM "hủy", litM "bỏ",
                 litM "delete", litM "remove"]) m ||
  searchM (seqM (litM "xóa")
    (seqM ws0M (altM [phraseM ["giao", "dịch"], litM "transaction"]))) m ||
  searchM (seqM (litM "hủy")
    (seqM ws0M (altM [phraseM ["giao", "dịch"], litM "transaction"]))) m

/-- The six `stats_patterns`. -/
def statsIntentHit (m : List Char) : Bool :=
  searchM (altM [phraseM ["thống", "kê"], phraseM ["báo", "cáo"],
                 phraseM ["tổng", "kết"]]) m ||
  searchM (seqM (litM "chi") (seqM ws0M (seqM (litM "tiêu") (seqM ws0M
    (altM [phraseM ["hôm", "nay"], litM "tuần", litM "tháng"]))))) m ||
  searchM (seqM (litM "xem")
    (seqM ws0M (altM [phraseM ["chi", "tiêu"], phraseM ["thống", "kê"]]))) m ||
  searchM (altM [phraseM ["hôm", "nay"], phraseM ["tuần", "này"],
                 phraseM ["tháng", "này"]]) m ||
  searchM (seqM digits1M (seqM ws0M (seqM (litM "ngày")
    (optM (altM [seqM ws0M (litM "qua"),
                 seqM ws0M (phraseM ["gần", "đây"])]))))) m ||
  searchM (seqM (litM "tổng")
    (seqM ws0M (altM [phraseM ["chi", "tiêu"], litM "tiền"]))) m

/-- The four `balance_patterns`. -/
def balanceIntentHit (m : List Char) : Bool :=
  searchM (seqM (altM [phraseM ["cập", "nhật"], litM "update"]) (seqM dotM
    (altM [phraseM ["tiền", "mặt"], litM "cash", phraseM ["số", "dư"]]))) m ||
  searchM (seqM (altM [phraseM ["tiền", "mặt"], litM "cash"]) (seqM dotM
    (altM [litM "còn", litM "có", digit1M]))) m ||
  searchM (seqM (altM [phraseM ["tài", "khoản"], litM "account",
                       phraseM ["ngân", "hàng"]]) (seqM dotM
    (altM [litM "còn", litM "có", digit1M]))) m ||
  searchM (seqM (phraseM ["số", "dư"]) (seqM dotM
    (altM [phraseM ["cập", "nhật"], litM "update", litM "còn", digit1M]))) m

/-- The four `expense_patterns`. -/
def expensePatternHit (m : List Char) : Bool :=
  searchM (seqM (altM [litM "ăn", litM "uống", litM "mua", litM "order",
                       litM "gọi", litM "ôrđơ"])
    (seqM ws1M (seqM word1M (seqM ws0M digits1M)))) m ||
  searchM (seqM (altM [litM "sáng", litM "trưa", litM "chiều", litM "tối"])
    (seqM ws1M (seqM (altM [litM "ăn", litM "uống"]) (seqM ws1M word1M)))) m ||
  searchM (seqM word1M (seqM ws0M (seqM digits1M (seqM (optM (litM "k"))
    (seqM ws0M (optM (altM [litM "nghìn", litM "ngàn"]))))))) m ||
  searchM (seqM (altM [litM "breakfast", litM "lunch", litM "dinner"])
    (seqM ws1M word1M)) m

/-- The four `price_patterns` of the intent fallback (`has_price`). -/
def priceHintHit (m : List Char) : Bool :=
  searchM (seqM digits1M (seqM (litM "k") wbM)) m ||
  searchM (seqM digits1M (seqM (litM "000") wbM)) m ||
  searchM (seqM digits1M (seqM ws0M (altM [litM "nghìn", litM "ngàn"]))) m ||
  searchM (seqM digits1M (seqM (litM ".") (seqM digits1M (litM "k")))) m

def intentFoodKws : List String :=
  ["ăn", "uống", "mua", "order", "gọi", "breakfast", "lunch", "dinner"]

structure IntentResult where
  intent : String
  confidence : ℚ
  analysis : String
  offline_mode : Option Bool
  deriving DecidableEq

/-- `_fallback_intent_analysis` (llm_processor.py:188-270). -/
def fallback_intent_analysis (msg : String) : IntentResult :=
  let m := pyStrip (pyLower msg.toList)
  if deleteIntentHit m then
    { intent := "delete_expense", confidence := 0.8,
      analysis := "Phát hiện từ khóa xóa (offline mode)",
      offline_mode := some true }
  else if statsIntentHit m then
    { intent := "view_statistics", confidence := 0.85,
      analysis := "Phát hiện từ khóa thống kê (offline mode)",
      offline_mode := some true }
  else if balanceIntentHit m then
    { intent := "update_balance", confidence := 0.8,
      analysis := "Phát hiện từ khóa cập nhật số dư (offline mode)",
      offline_mode := some true }
  else if (priceHintHit m && containsAny intentFoodKws m) || expensePatternHit m then
    { intent := "add_expense", confidence := 0.75,
      analysis := "Phát hiện từ khóa chi tiêu và giá tiền (offline mode)",
      offline_mode := some true }
  else
    { intent := "unknown", confidence := 0.2,
      analysis := "Không xác định được ý định (offline mode)",
      offline_mode := some true }

/-! `ExpenseExtractor._fallback_extraction` (llm_processor.py:649-780). -/

/-- Python `str.split()` (split on whitespace runs, no empty words). -/
def splitWsAux : List Char → List Char → List (List Char)
  | [], acc => if acc.isEmpty then [] else [acc.reverse]
  | c :: cs, acc =>
    if isSpaceChar c then
      if acc.isEmpty then splitWsAux cs [] else acc.reverse :: splitWsAux cs []
    else splitWsAux cs (c :: acc)

def splitWs (l : List Char) : List (List Char) := splitWsAux l []

/-- Python `re.sub(r'\d+k?', '', w)`: delete every digit run together with
one optional `k` directly after it.  The flag records whether the previous
character was part of a digit run (so a following `k` is consumed). -/
def subDigitsKAux : Bool → List Char → List Char
  | _, [] => []
  | inRun, c :: cs =>
    if c.isDigit then subDigitsKAux true cs
    else if inRun && c = 'k' then subDigitsKAux false cs
    else c :: subDigitsKAux false cs

def subDigitsK (l : List Char) : List Char := subDigitsKAux false l

def fbIncomeKws : List String :=
  ["lãnh", "lương", "nhận", "thu", "được", "thưởng", "salary", "income", "tiền lương"]

def fbExpenseKws : List String := ["ăn", "uống", "mua", "chi", "tiêu", "trả", "spend"]

def fb_transaction_type (m : List Char) : String :=
  if containsAny fbIncomeKws m then "income"
  else if containsAny fbExpenseKws m then "expense"
  else "expense"

def fb_trans_boost (m : List Char) : ℚ :=
  if containsAny fbIncomeKws m then 0.1
  else if containsAny fbExpenseKws m then 0.1
  else 0

def fbAccountKws : List String :=
  ["tài khoản", "ngân hàng", "account", "atm", "banking", "chuyển khoản", "vào tài khoản"]

def fbCashKws : List String := ["tiền mặt", "cash", "tiền lẻ", "tiền túi"]

def fb_account_type (m : List Char) : String :=
  if containsAny fbAccountKws m then "account"
  else if containsAny fbCashKws m then "cash"
  else "cash"

def fb_account_boost (m : List Char) : ℚ :=
  if containsAny fbAccountKws m then 0.1
  else if containsAny fbCashKws m then 0.1
  else 0

/-- The expense-path price loop: patterns `(\d+)k\b`, `(\d+)000\b`,
`(\d+)\s*nghìn\b`, `(\d+\.\d+)k\b`, first match wins; `k`/`nghìn`
patterns multiply by 1000, the `(\d+)000\b` branch keeps the captured
group literally (`float(price_str)`). -/
def fb_price (m : List Char) : Option ℚ :=
  match findMapSuffix (matchNumK true) m with
  | some n => some ((n : ℚ) * 1000)
  | none =>
    match findMapSuffix matchNumThousand m with
    | some n => some ((n : ℚ))
    | none =>
      match findMapSuffix (matchNumNghin true) m with
      | some n => some ((n : ℚ) * 1000)
      | none => (findMapSuffix matchNumFracK m).map (fun q => q * 1000)

def mealSets : List (String × List String) :=
  [("sáng", ["sáng", "buổi sáng", "breakfast"]),
   ("trưa", ["trưa", "buổi trưa", "lunch"]),
   ("chiều", ["chiều", "buổi chiều", "afternoon"]),
   ("tối", ["tối", "buổi tối", "dinner", "supper"])]

def fb_meal (m : List Char) : Option String :=
  (mealSets.find? (fun p => containsAny p.2 m)).map (fun p => p.1)

def foodActionKws : List String := ["ăn", "uống", "mua", "order", "gọi"]

/-- Strategy 1: first word (in original casing) right after a word whose
lowercasing contains a food/action keyword, digit runs and unit `k`
removed, kept only when at least two characters remain. -/
def strat1Food : List (List Char) → Option (List Char)
  | w :: rest@(next :: _) =>
    if foodActionKws.any (fun kw => isSubstr kw.toList (pyLower w)) then
      let pf := pyStrip (subDigitsK next)
      if 2 ≤ pf.length then some pf else strat1Food rest
    else strat1Food rest
  | _ => none

def incomeDescs : List String := ["lương", "thưởng", "thu nhập", "tiền lương", "nhận tiền"]

/-- Strategy 2: first income description contained in the lowered message. -/
def firstIncomeDesc (m : List Char) : Option (List Char) :=
  (incomeDescs.find? (fun d => isSubstr d.toList m)).map (fun d => d.toList)

def fbSkipWords : List String :=
  ["sáng", "trưa", "chiều", "tối", "ăn", "uống", "mua", "order", "gọi", "buổi",
   "lãnh", "nhận", "từ", "vào", "tài", "khoản", "tiền", "mặt"]

/-- Strategy 3: first cleaned word outside the skip list with more than two
characters. -/
def strat3Food : List (List Char) → Option (List Char)
  | [] => none
  | w :: rest =>
    let wc := pyStrip (subDigitsK (pyLower w))
    if !((fbSkipWords.map String.toList).contains wc) && 3 ≤ wc.length then some wc
    else strat3Food rest

/-- The four description strategies, with the confidence boost the firing
strategy contributes (Strategy 4 placeholders add none). -/
def fb_food (msg : String) (m : List Char) (trans : String) : List Char × ℚ :=
  match strat1Food (splitWs msg.toList) with
  | some f => (f, 0.2)
  | none =>
    match (if trans = "income" then firstIncomeDesc m else none) with
    | some f => (f, 0.15)
    | none =>
      match strat3Food (splitWs msg.toList) with
      | some f => (f, 0.1)
      | none => ((if trans = "income" then "thu nhập" else "chi tiêu").toList, 0)

/-- The completeness bonus (llm_processor.py:771-775). -/
def fb_bonus (price : ℚ) (food : List Char) (meal : Option String) : ℚ :=
  if 0 < price ∧ food ≠ "thu nhập".toList ∧ food ≠ "chi tiêu".toList then
    if meal.isSome then 0.1 else 0.05
  else 0

/-- The final fallback clamp `min(max(final_confidence, 0.2), 0.9)`. -/
def fallbackConfidence (r : ℚ) : ℚ := min (max r 0.2) 0.9

structure ExpenseResult where
  food_item : String
  price : ℚ
  meal_time : Option String
  transaction_type : String
  account_type : String
  confidence : ℚ
  offline_mode : Option Bool
  deriving DecidableEq

/-- Base confidence 0.3 plus every boost accumulated by
`_fallback_extraction`, before the clamp. -/
def fb_raw_confidence (msg : String) : ℚ :=
  let m := pyLower msg.toList
  let price := fb_price m
  let meal := fb_meal m
  let fd := fb_food msg m (fb_transaction_type m)
  0.3 + fb_trans_boost m + fb_account_boost m
      + (if price.isSome then 0.2 else 0)
      + (if meal.isSome then 0.15 else 0)
      + fd.2
      + fb_bonus ((fb_price m).getD 0) fd.1 meal

/-- `_fallback_extraction` (llm_processor.py:649-780). -/
def fallback_extraction (msg : String) : ExpenseResult :=
  { food_item := String.mk (fb_food msg (pyLower msg.toList)
      (fb_transaction_type (pyLower msg.toList))).1
  , price := (fb_price (pyLower msg.toList)).getD 0
  , meal_time := fb_meal (pyLower msg.toList)
  , transaction_type := fb_transaction_type (pyLower msg.toList)
  , account_type := fb_account_type (pyLower msg.toList)
  , confidence := fallbackConfidence (fb_raw_confidence msg)
  , offline_mode := some true }

/-! `ExpenseExtractor._validate_and_fix_llm_result` (llm_processor.py:565-647). -/

/-- The parsed JSON dict a successful model call hands to validation.
`none` fields are absent keys (or, for numbers, non-numeric values whose
processing raises and so ends in the overall fallback). -/
structure RawExpense where
  food_item : String
  price : Option ℚ
  meal_time : Option String
  transaction_type : Option String
  account_type : Option String
  confidence : Option ℚ
  deriving DecidableEq

def validateSkip : List String := ["ăn", "uống", "mua", "sáng", "trưa", "chiều", "tối"]

/-- The word scan re-deriving a missing description (llm_processor.py:572-580). -/
def vFoodScan : List (List Char) → Option (List Char)
  | [] => none
  | w :: rest =>
    let wc := pyStrip (pyLower w)
    if !((validateSkip.map String.toList).contains wc)
        && !(wc.getLast? = some 'k')
        && !(!wc.isEmpty && wc.all Char.isDigit)
        && 2 ≤ wc.length
    then some wc
    else vFoodScan rest

/-- The price re-scan of validation: `(\d+)k\b`, `(\d+)000\b`,
`(\d+)\s*nghìn\b` (llm_processor.py:590-599). -/
def v_price_scan (m : List Char) : Option ℚ :=
  match findMapSuffix (matchNumK true) m with
  | some n => some ((n : ℚ) * 1000)
  | none =>
    match findMapSuffix matchNumThousand m with
    | some n => some ((n : ℚ))
    | none => (findMapSuffix (matchNumNghin true) m).map (fun n => (n : ℚ) * 1000)

/-- The model-path clamp `min(max(confidence, 0.0), 1.0)`. -/
def clamp01 (c : ℚ) : ℚ := min (max c 0) 1

def vIncomeKws : List String :=
  ["lãnh", "lương", "nhận", "thu", "được", "thưởng", "salary", "income"]

def vAccountKws : List String :=
  ["tài khoản", "ngân hàng", "account", "atm", "banking", "chuyển khoản"]

/-- Validation of the description (llm_processor.py:568-583): strip, and
when empty re-derive by the word scan, with `'giao dịch'` as the final
default. -/
def v_food (rawFood : String) (msg : String) : List Char :=
  if (pyStrip rawFood.toList).isEmpty then
    (vFoodScan (splitWs msg.toList)).getD "giao dịch".toList
  else pyStrip rawFood.toList

/-- Validation of the price (llm_processor.py:585-602): a missing or
non-positive price is re-scanned from the message, and 1000 is the final
default. -/
def v_price (rawPrice : Option ℚ) (msg : String) : ℚ :=
  if 0 < rawPrice.getD 0 then rawPrice.getD 0
  else
    let p1 := (v_price_scan (pyLower msg.toList)).getD (rawPrice.getD 0)
    if p1 ≤ 0 then 1000 else p1

/-- Validation of the transaction type (llm_processor.py:609-618). -/
def v_trans (rawTrans : Option String) (msg : String) : String :=
  if rawTrans.getD "expense" = "expense" ∨ rawTrans.getD "expense" = "income" then
    rawTrans.getD "expense"
  else if containsAny vIncomeKws (pyLower msg.toList) then "income"
  else "expense"

/-- Validation of the account type (llm_processor.py:620-629). -/
def v_acct (rawAcct : Option String) (msg : String) : String :=
  if rawAcct.getD "cash" = "cash" ∨ rawAcct.getD "cash" = "account" then
    rawAcct.getD "cash"
  else if containsAny vAccountKws (pyLower msg.toList) then "account"
  else "cash"

/-- The repair penalty (llm_processor.py:631-637): if any field was fixed,
`max(confidence - 0.2, 0.3)`. -/
def v_conf (raw : RawExpense) (msg : String) : ℚ :=
  if raw.food_item ≠ String.mk (v_food raw.food_item msg)
      ∨ raw.price ≠ some (v_price raw.price msg)
      ∨ raw.transaction_type ≠ some (v_trans raw.transaction_type msg)
      ∨ raw.account_type ≠ some (v_acct raw.account_type msg)
  then max (raw.confidence.getD 0.5 - 0.2) 0.3
  else raw.confidence.getD 0.5

/-- `_validate_and_fix_llm_result`. -/
def validate_and_fix_llm_result (raw : RawExpense) (msg : String) : ExpenseResult :=
  { food_item := String.mk (v_food raw.food_item msg)
  , price := v_price raw.price msg
  , meal_time := raw.meal_time
  , transaction_type := v_trans raw.transaction_type msg
  , account_type := v_acct raw.account_type msg
  , confidence := clamp01 (v_conf raw msg)
  , offline_mode := some false }

/-! `ExpenseExtractor._fallback_delete_extraction` (llm_processor.py:478-538). -/

structure DeleteResult where
  food_item : String
  price : Option ℚ
  meal_time : Option String
  confidence : ℚ
  offline_mode : Option Bool
  deriving DecidableEq

def deleteStripWords : List String :=
  ["xóa", "xoá", "hủy", "bỏ", "delete", "remove", "giao dịch"]

/-- Python `str.replace(w, ' ')`: left-to-right, non-overlapping.  The
fuel argument (initially the length of the list) only serves structural
termination; one character or one whole occurrence is consumed per step, so
`fuel = length` never runs out. -/
def replaceWordAux (w : List Char) : ℕ → List Char → List Char
  | 0, l => l
  | _ + 1, [] => []
  | fuel + 1, c :: cs =>
    if !w.isEmpty && startsWithL w (c :: cs)
    then ' ' :: replaceWordAux w fuel ((c :: cs).drop w.length)
    else c :: replaceWordAux w fuel cs

def replaceWord (l w : List Char) : List Char := replaceWordAux w l.length l

/-- The delete-path price loop: `(\d+)k`, `(\d+)000`, `(\d+)\s*nghìn`
(without `\b`, unlike the expense-path patterns). -/
def fb_delete_price (m : List Char) : Option ℚ :=
  match findMapSuffix (matchNumK false) m with
  | some n => some ((n : ℚ) * 1000)
  | none =>
    match findMapSuffix matchNumThousandNb m with
    | some n => some ((n : ℚ))
    | none => (findMapSuffix (matchNumNghin false) m).map (fun n => (n : ℚ) * 1000)

def deleteMealSets : List (String × List String) :=
  [("sáng", ["sáng", "buổi sáng"]), ("trưa", ["trưa", "buổi trưa"]),
   ("chiều", ["chiều", "buổi chiều"]), ("tối", ["tối", "buổi tối"])]

/-- First word following a word containing a food keyword. -/
def delFoodScan1 : List (List Char) → Option (List Char)
  | w :: rest@(next :: _) =>
    if ["ăn", "uống", "mua"].any (fun kw => isSubstr kw.toList w) then some next
    else delFoodScan1 rest
  | _ => none

/-- Otherwise: first word longer than two characters that is not a meal
name. -/
def delFoodScan2 : List (List Char) → Option (List Char)
  | [] => none
  | w :: rest =>
    if 3 ≤ w.length && !(((["sáng", "trưa", "chiều", "tối"] : List String).map
        String.toList).contains w)
    then some w
    else delFoodScan2 rest

/-- `_fallback_delete_extraction`: fixed confidence 0.4; no offline key. -/
def fallback_delete_extraction (msg : String) : DeleteResult :=
  let mc := deleteStripWords.foldl (fun acc w => replaceWord acc w.toList)
    (pyLower msg.toList)
  let ws := splitWs mc
  { food_item := String.mk
      (((delFoodScan1 ws).orElse (fun _ => delFoodScan2 ws)).getD
        "Không xác định".toList)
  , price := fb_delete_price mc
  , meal_time := (deleteMealSets.find? (fun p => containsAny p.2 mc)).map
      (fun p => p.1)
  , confidence := 0.4
  , offline_mode := none }

/-- Parsed JSON of a delete-extraction model response. -/
structure RawDelete where
  food_item : String
  price : Option ℚ
  meal_time : Option String
  confidence : Option ℚ
  deriving DecidableEq

/-- `_parse_delete_response` (llm_processor.py:450-476); an empty
`food_item` fails validation and falls back, and a price of 0 is falsy so
it becomes `None`. -/
def parse_delete_response (r : Option RawDelete) (msg : String) : DeleteResult :=
  match r with
  | none => fallback_delete_extraction msg
  | some raw =>
    if raw.food_item = "" then fallback_delete_extraction msg
    else
      { food_item := String.mk (pyStrip raw.food_item.toList)
      , price := match raw.price with
          | some p => if p = 0 then none else some p
          | none => none
      , meal_time := raw.meal_time
      , confidence := clamp01 (raw.confidence.getD 0.5)
      , offline_mode := none }

/-! `ExpenseExtractor._fallback_balance_update` (llm_processor.py:892-965). -/

/-- The balance-update dict; every key is optional (absent = `none`). -/
structure BalanceDict where
  cash_balance : Option ℚ := none
  account_balance : Option ℚ := none
  cash_amount : Option ℚ := none
  account_amount : Option ℚ := none
  deriving DecidableEq

def balanceTriggerKws : List String :=
  ["cập nhật", "update", "tiền mặt", "tài khoản", "lãnh lương", "nhận tiền", "chi tiêu"]

def balanceSetKws : List String :=
  ["cập nhật lại", "chỉ có", "là", "thành", "đặt lại", "reset", "thiết lập"]

def balanceAccountKws : List String :=
  ["tài khoản", "ngân hàng", "account", "atm", "vào tài khoản"]

def balanceCashKws : List String := ["tiền mặt", "cash", "tiền lẻ", "tiền túi"]

def balanceIncomeKws : List String :=
  ["lãnh", "lương", "nhận", "thu", "được", "thưởng", "cập nhật", "còn", "có"]

def balanceExpenseKws : List String := ["chi", "tiêu", "mất", "trả", "spend"]

/-- The balance-path amount loop: `(\d+)k\b`, `(\d+)000\b`,
`(\d+)\s*nghìn\b`, `(\d+)\s*triệu\b`. -/
def fb_balance_amount (m : List Char) : Option ℚ :=
  match findMapSuffix (matchNumK true) m with
  | some n => some ((n : ℚ) * 1000)
  | none =>
    match findMapSuffix matchNumThousand m with
    | some n => some ((n : ℚ))
    | none =>
      match findMapSuffix (matchNumNghin true) m with
      | some n => some ((n : ℚ) * 1000)
      | none => (findMapSuffix matchNumTrieu m).map (fun n => (n : ℚ) * 1000000)

/-- `_fallback_balance_update`.  The source also computes an
`is_add_operation` flag from add keywords but never branches on it: any
message that is not a set operation takes the add branch. -/
def fallback_balance_update (msg : String) : Option BalanceDict :=
  let m := pyLower msg.toList
  if !containsAny balanceTriggerKws m then none
  else
    let amount := (fb_balance_amount m).getD 0
    if amount ≤ 0 then none
    else
      let isAcc := containsAny balanceAccountKws m
      let isCash := containsAny balanceCashKws m
      if containsAny balanceSetKws m then
        if isAcc && !isCash then some { account_balance := some amount }
        else if isCash && !isAcc then some { cash_balance := some amount }
        else some { cash_balance := some amount }
      else
        let isIncome := containsAny balanceIncomeKws m
        let isExpense := containsAny balanceExpenseKws m
        let signed := if isExpense && !isIncome then -amount else amount
        if isAcc && !isCash then some { account_amount := some signed }
        else if isCash && !isAcc then some { cash_amount := some signed }
        else some { cash_amount := some signed }

/-- Parsed JSON of a balance-update model response. -/
structure RawBalance where
  is_balance_update : Bool
  operation_type : Option String
  cash_balance : Option ℚ
  account_balance : Option ℚ
  cash_amount : Option ℚ
  account_amount : Option ℚ
  deriving DecidableEq

/-- `_parse_balance_response` (llm_processor.py:853-890): a parse failure
falls back, `is_balance_update = false` returns `None` directly, and an
empty update dict becomes `None`. -/
def parse_balance_response (r : Option RawBalance) (msg : String) :
    Option BalanceDict :=
  match r with
  | none => fallback_balance_update msg
  | some raw =>
    if raw.is_balance_update then
      let bu : BalanceDict :=
        if raw.operation_type.getD "add" = "set" then
          { cash_balance := raw.cash_balance, account_balance := raw.account_balance }
        else
          { cash_amount := raw.cash_amount, account_amount := raw.account_amount }
      if bu = {} then none else some bu
    else none

/-! `ExpenseExtractor._fallback_statistics_extraction`
(llm_processor.py:1061-1103). -/

structure StatsResult where
  period : String
  days : ℕ
  confidence : ℚ
  offline_mode : Option Bool
  deriving DecidableEq

def fallback_statistics_extraction (msg : String) : StatsResult :=
  let m := pyLower msg.toList
  match findMapSuffix matchNumNgay m with
  | some n => { period := "custom", days := n, confidence := 0.8, offline_mode := none }
  | none =>
    if containsAny ["hôm nay", "ngày hôm nay"] m then
      { period := "today", days := 1, confidence := 0.9, offline_mode := none }
    else if containsAny ["tuần", "tuần này", "7 ngày"] m then
      { period := "week", days := 7, confidence := 0.9, offline_mode := none }
    else if containsAny ["tháng", "tháng này", "30 ngày"] m then
      { period := "month", days := 30, confidence := 0.9, offline_mode := none }
    else { period := "week", days := 7, confidence := 0.6, offline_mode := none }

/-- Parsed JSON of a statistics model response. -/
structure RawStats where
  period : Option String
  days : Option ℚ
  confidence : Option ℚ
  deriving DecidableEq

/-- `_parse_statistics_response` (llm_processor.py:1027-1059). -/
def parse_statistics_response (r : Option RawStats) (msg : String) : StatsResult :=
  match r with
  | none => fallback_statistics_extraction msg
  | some raw =>
    let p :=
      if (["today", "week", "month", "custom"] : List String).contains
          (raw.period.getD "")
      then raw.period.getD "" else "week"
    let d : ℚ := raw.days.getD 7
    let d2 : ℚ := if d ≤ 0 then 7 else d
    { period := p
    , days := (⌊d2⌋).toNat
    , confidence := clamp01 (raw.confidence.getD 0.5)
    , offline_mode := none }

/-! Parsed intent response (`_parse_intent_response`,
llm_processor.py:158-186). -/

structure RawIntent where
  intent : String
  confidence : Option ℚ
  analysis : Option String
  deriving DecidableEq

def validIntents : List String :=
  ["add_expense", "delete_expense", "update_balance", "view_statistics", "unknown"]

def parse_intent_response (r : Option RawIntent) (msg : String) : IntentResult :=
  match r with
  | none => fallback_intent_analysis msg
  | some raw =>
    if validIntents.contains raw.intent then
      { intent := raw.intent
      , confidence := clamp01 (raw.confidence.getD 0.5)
      , analysis := raw.analysis.getD ""
      , offline_mode := some false }
    else fallback_intent_analysis msg

/-! The stateful entry points.  `avail` is the module flag
`_llm_available` on entry, `hasLLM` is whether `self.llm` is non-None, the
`LLMOutcome` describes the live call (`raises` = any exception from
`llm.invoke`, `returns none` = output whose JSON parsing / validation
raises, `returns (some raw)` = parsed output).  Each returns its result
together with the flag on exit. -/

inductive LLMOutcome (α : Type) where
  | raises : LLMOutcome α
  | returns : Option α → LLMOutcome α
  deriving DecidableEq

/-- `QueryAnalyzer.analyze_intent` (llm_processor.py:57-90): offline or on
exception it falls back (setting `offline_mode = True` and, on exception,
demoting `_llm_available`). -/
def analyze_intent (avail hasLLM : Bool) (o : LLMOutcome RawIntent)
    (msg : String) : IntentResult × Bool :=
  if !avail || !hasLLM then
    ({ fallback_intent_analysis msg with offline_mode := some true }, avail)
  else
    match o with
    | .raises => ({ fallback_intent_analysis msg with offline_mode := some true }, false)
    | .returns r => (parse_intent_response r msg, avail)

/-- `_parse_llm_response` (llm_processor.py:540-563). -/
def parse_llm_response (r : Option RawExpense) (msg : String) : ExpenseResult :=
  match r with
  | none => fallback_extraction msg
  | some raw => validate_and_fix_llm_result raw msg

/-- `ExpenseExtractor.extract_expense_info` (llm_processor.py:303-395):
checks both the module flag and the instance handle; an exception demotes
the flag (line 393). -/
def extract_expense_info (avail hasLLM : Bool) (o : LLMOutcome RawExpense)
    (msg : String) : ExpenseResult × Bool :=
  if !avail || !hasLLM then (fallback_extraction msg, avail)
  else
    match o with
    | .raises => (fallback_extraction msg, false)
    | .returns r => (parse_llm_response r msg, avail)

/-- `ExpenseExtractor.extract_delete_info` (llm_processor.py:397-448):
checks only `self.llm`, and its exception handler does not touch
`_llm_available`. -/
def extract_delete_info (avail hasLLM : Bool) (o : LLMOutcome RawDelete)
    (msg : String) : DeleteResult × Bool :=
  if !hasLLM then (fallback_delete_extraction msg, avail)
  else
    match o with
    | .raises => (fallback_delete_extraction msg, avail)
    | .returns r => (parse_delete_response r msg, avail)

/-- `ExpenseExtractor.process_balance_update` (llm_processor.py:782-851):
checks only `self.llm`; the exception handler does not touch the flag. -/
def process_balance_update (avail hasLLM : Bool) (o : LLMOutcome RawBalance)
    (msg : String) : Option BalanceDict × Bool :=
  if !hasLLM then (fallback_balance_update msg, avail)
  else
    match o with
    | .raises => (fallback_balance_update msg, avail)
    | .returns r => (parse_balance_response r msg, avail)

/-- `ExpenseExtractor.extract_statistics_info` (llm_processor.py:967-1025):
checks only `self.llm`; the exception handler does not touch the flag. -/
def extract_statistics_info (avail hasLLM : Bool) (o : LLMOutcome RawStats)
    (msg : String) : StatsResult × Bool :=
  if !hasLLM then (fallback_statistics_extraction msg, avail)
  else
    match o with
    | .raises => (fallback_statistics_extraction msg, avail)
    | .returns r => (parse_statistics_response r msg, avail)

/-- `ExpenseExtractor.__init__` (llm_processor.py:274-301): when the flag
is already down, no handle is created; otherwise a handle exists iff the
environment provides a key and construction succeeds (`envOk`), and a
failed construction demotes the flag.  Returns (hasLLM, flag). -/
def expense_extractor_init (avail envOk : Bool) : Bool × Bool :=
  if !avail then (false, avail)
  else if envOk then (true, avail)
  else (false, false)

/-! `ExpenseTracker` (expense_tracker.py). -/

/-- The methods defined on `ExpenseExtractor` in `llm_processor.py` (the
module `expense_tracker.py` imports from).  Note there is no
`_extract_balance_update_info`: only the superseded
`llm_processor_backup.py` defines that name. -/
def expenseExtractorMethods : List String :=
  ["__init__", "extract_expense_info", "extract_delete_info",
   "_parse_delete_response", "_fallback_delete_extraction",
   "_parse_llm_response", "_validate_and_fix_llm_result",
   "_fallback_extraction", "process_balance_update",
   "_parse_balance_response", "_fallback_balance_update",
   "extract_statistics_info", "_parse_statistics_response",
   "_fallback_statistics_extraction"]

inductive PyExc where
  | attributeError : String → PyExc
  deriving DecidableEq

/-- The shape of the dict every handler branch returns. -/
structure ProcResult where
  success : Bool
  deriving DecidableEq

/-- `ExpenseTracker.process_user_message` (expense_tracker.py:21-82) in
offline mode (`_llm_available = False`, so intent analysis takes the
fallback).  The three database-backed handlers are abstract parameters;
the `update_balance` branch never reaches a handler because line 55 first
looks up `self.llm_processor._extract_balance_update_info`, and attribute
lookup on `ExpenseExtractor` raises `AttributeError` when the name is not
among its methods.  There is no enclosing `try` in
`process_user_message`. -/
def process_user_message_offline
    (handleEntry handleDeletion handleStats : String → ProcResult)
    (msg : String) : Except PyExc ProcResult :=
  let ir := { fallback_intent_analysis msg with offline_mode := some true }
  if ir.confidence < 0.3 then .ok { success := false }
  else if ir.intent = "add_expense" then .ok (handleEntry msg)
  else if ir.intent = "delete_expense" then .ok (handleDeletion msg)
  else if ir.intent = "update_balance" then
    if expenseExtractorMethods.contains "_extract_balance_update_info" then
      .ok { success := false }
    else .error (.attributeError "_extract_balance_update_info")
  else if ir.intent = "view_statistics" then .ok (handleStats msg)
  else .ok { success := false }

def recentKeywords : List String :=
  ["xóa", "gần nhất", "recent", "last", "latest", ""]

/-- The shortcut test of `_handle_expense_deletion`
(expense_tracker.py:305-314): `message.strip().lower()` is compared
against the generic delete markers. -/
def deleteShortcutCond (msg : String) : Bool :=
  let mc := pyLower (pyStrip msg.toList)
  (recentKeywords.map String.toList).contains mc
    || mc = "xóa giao dịch gần nhất".toList
    || mc = "xóa gần nhất".toList
    || mc.isEmpty

/-- What the delete handler decides to do: delete the most recent
transaction (reporting the given fixed confidence on success), reject for
low confidence, or delete by the extracted criteria. -/
inductive DeleteAction where
  | mostRecent : ℚ → DeleteAction
  | reject : ℚ → DeleteAction
  | byCriteria : DeleteResult → DeleteAction
  deriving DecidableEq

/-- `ExpenseTracker._handle_expense_deletion` (expense_tracker.py:301-362),
up to the database call: the shortcut branch never invokes the extraction
function at all and fixes the reported confidence at 1.0; otherwise the
extracted criteria are rejected iff confidence < 0.4. -/
def handle_expense_deletion (extract : String → DeleteResult) (msg : String) :
    DeleteAction :=
  if deleteShortcutCond msg then .mostRecent 1
  else
    let info := extract msg
    if info.confidence < 0.4 then .reject info.confidence
    else .byCriteria info

/-! General lemmas. -/

theorem clamp01_nonneg (c : ℚ) : 0 ≤ clamp01 c :=
  le_min (le_max_right _ _) (by norm_num)

theorem clamp01_le_one (c : ℚ) : clamp01 c ≤ 1 := min_le_right _ _

theorem fallbackConfidence_lower (r : ℚ) : 0.2 ≤ fallbackConfidence r :=
  le_min (le_max_right _ _) (by norm_num)

theorem fallbackConfidence_upper (r : ℚ) : fallbackConfidence r ≤ 0.9 :=
  min_le_right _ _

theorem stringMk_eq_empty_iff (l : List Char) : String.mk l = "" ↔ l = [] := by
  constructor
  · intro h
    exact congrArg String.data h
  · intro h
    rw [h]

theorem startsWithL_map_fixed (f : Char → Char) :
    ∀ (n t : List Char), n.map f = n → startsWithL n t = true →
      startsWithL n (t.map f) = true := by
  intro n
  induction n with
  | nil => intro t _ _; rfl
  | cons a as ih =>
    intro t hfix hsw
    cases t with
    | nil => simp [startsWithL] at hsw
    | cons b bs =>
      simp only [startsWithL, Bool.and_eq_true, decide_eq_true_eq] at hsw
      simp only [List.map_cons, List.cons.injEq] at hfix
      simp only [List.map_cons, startsWithL, Bool.and_eq_true, decide_eq_true_eq]
      refine ⟨?_, ih bs hfix.2 hsw.2⟩
      rw [← hsw.1, hfix.1]

theorem isSubstr_map_fixed (f : Char → Char) (n : List Char)
    (hfix : n.map f = n) :
    ∀ (h : List Char), isSubstr n h = true → isSubstr n (h.map f) = true := by
  intro h
  induction h with
  | nil => intro hs; simpa [isSubstr] using hs
  | cons c t ih =>
    intro hs
    simp only [isSubstr, Bool.or_eq_true] at hs
    simp only [List.map_cons, isSubstr, Bool.or_eq_true]
    rcases hs with hs | hs
    · exact Or.inl (by simpa using startsWithL_map_fixed f n (c :: t) hfix hs)
    · exact Or.inr (ih hs)

theorem containsAny_of_mem (kws : List String) (m : List Char) (k : String)
    (hk : k ∈ kws) (hs : isSubstr k.toList m = true) :
    containsAny kws m = true := by
  simp only [containsAny, List.any_eq_true]
  exact ⟨k, hk, hs⟩

/-- `pyLower` of a message contains any needle the message itself contains,
provided the needle is fixed by lowercasing (true of every keyword used). -/
theorem isSubstr_pyLower (n : List Char) (msg : String)
    (hfix : n.map pyLowerChar = n) (hs : isSubstr n msg.toList = true) :
    isSubstr n (pyLower msg.toList) = true :=
  isSubstr_map_fixed pyLowerChar n hfix msg.toList hs

/-! Nonemptiness of every description strategy. -/

theorem strat1Food_len :
    ∀ (ws : List (List Char)) (f : List Char), strat1Food ws = some f →
      2 ≤ f.length := by
  intro ws
  induction ws with
  | nil => intro f h; simp [strat1Food] at h
  | cons w rest ih =>
    intro f h
    cases rest with
    | nil => simp [strat1Food] at h
    | cons next rest2 =>
      rw [strat1Food] at h
      split at h
      · dsimp only at h
        split at h
        · cases h; assumption
        · exact ih f h
      · exact ih f h

theorem strat3Food_len :
    ∀ (ws : List (List Char)) (f : List Char), strat3Food ws = some f →
      3 ≤ f.length := by
  intro ws
  induction ws with
  | nil => intro f h; simp [strat3Food] at h
  | cons w rest ih =>
    intro f h
    rw [strat3Food] at h
    split at h
    · cases h
      rename_i hcond
      simp only [Bool.and_eq_true, decide_eq_true_eq] at hcond
      exact hcond.2
    · exact ih f h

theorem firstIncomeDesc_ne_nil (m : List Char) (f : List Char)
    (h : firstIncomeDesc m = some f) : f ≠ [] := by
  rw [firstIncomeDesc] at h
  obtain ⟨d, hd, hf⟩ := Option.map_eq_some'.mp h
  have hmem : d ∈ incomeDescs := List.mem_of_find?_eq_some hd
  subst hf
  fin_cases hmem <;> decide

theorem fb_food_ne_nil (msg : String) (m : List Char) (t : String) :
    (fb_food msg m t).1 ≠ [] := by
  unfold fb_food
  cases h1 : strat1Food (splitWs msg.toList) with
  | some f =>
    have h2 := strat1Food_len _ f h1
    dsimp only
    intro hf
    rw [hf] at h2
    simp at h2
  | none =>
    cases h2 : (if t = "income" then firstIncomeDesc m else none) with
    | some f =>
      dsimp only
      have hne : f ≠ [] := by
        split at h2
        · exact firstIncomeDesc_ne_nil m f h2
        · exact absurd h2 (by simp)
      exact hne
    | none =>
      cases h3 : strat3Food (splitWs msg.toList) with
      | some f =>
        have h4 := strat3Food_len _ f h3
        dsimp only
        intro hf
        rw [hf] at h4
        simp at h4
      | none =>
        dsimp only
        split <;> decide

theorem vFoodScan_len :
    ∀ (ws : List (List Char)) (f : List Char), vFoodScan ws = some f →
      2 ≤ f.length := by
  intro ws
  induction ws with
  | nil => intro f h; simp [vFoodScan] at h
  | cons w rest ih =>
    intro f h
    rw [vFoodScan] at h
    split at h
    · cases h
      rename_i hcond
      simp only [Bool.and_eq_true, decide_eq_true_eq] at hcond
      exact hcond.2
    · exact ih f h

theorem v_food_ne_nil (rawFood : String) (msg : String) :
    v_food rawFood msg ≠ [] := by
  unfold v_food
  split
  · cases h : vFoodScan (splitWs msg.toList) with
    | some f =>
      have h2 := vFoodScan_len _ f h
      rw [Option.getD_some]
      intro hf
      rw [hf] at h2
      simp at h2
    | none => decide
  · rename_i hne
    simpa [List.isEmpty_iff] using hne

theorem v_price_pos (rawPrice : Option ℚ) (msg : String) :
    0 < v_price rawPrice msg := by
  unfold v_price
  split
  · assumption
  · dsimp only
    split
    · norm_num
    · rename_i hle
      exact lt_of_not_ge hle

/-! Confidence bounds of the individual result producers. -/

theorem fallback_intent_conf_bounds (msg : String) :
    0.2 ≤ (fallback_intent_analysis msg).confidence
    ∧ (fallback_intent_analysis msg).confidence ≤ 0.85 := by
  unfold fallback_intent_analysis
  dsimp only
  split_ifs <;> constructor <;> norm_num

theorem parse_intent_conf_bounds (r : Option RawIntent) (msg : String) :
    0 ≤ (parse_intent_response r msg).confidence
    ∧ (parse_intent_response r msg).confidence ≤ 1 := by
  have h := fallback_intent_conf_bounds msg
  cases r with
  | none =>
    simp only [parse_intent_response]
    exact ⟨by linarith [h.1], by linarith [h.2]⟩
  | some raw =>
    simp only [parse_intent_response]
    split
    · exact ⟨clamp01_nonneg _, clamp01_le_one _⟩
    · exact ⟨by linarith [h.1], by linarith [h.2]⟩

theorem fallback_extraction_conf_bounds (msg : String) :
    0.2 ≤ (fallback_extraction msg).confidence
    ∧ (fallback_extraction msg).confidence ≤ 0.9 :=
  ⟨fallbackConfidence_lower _, fallbackConfidence_upper _⟩

theorem fallback_statistics_conf_bounds (msg : String) :
    0.2 ≤ (fallback_statistics_extraction msg).confidence
    ∧ (fallback_statistics_extraction msg).confidence ≤ 0.9 := by
  unfold fallback_statistics_extraction
  dsimp only
  split
  · constructor <;> norm_num
  · split_ifs <;> constructor <;> norm_num

theorem fallback_delete_conf (msg : String) :
    (fallback_delete_extraction msg).confidence = 0.4 := rfl

theorem fallback_statistics_offline_none (msg : String) :
    (fallback_statistics_extraction msg).offline_mode = none := by
  unfold fallback_statistics_extraction
  dsimp only
  split
  · rfl
  · split_ifs <;> rfl

/-! ## The claims

The section below holds the claim theorems that evaluate the embedding at
concrete inputs; the `Rat` arithmetic primitives are locally unsealed so
that those evaluations reduce (the attribute is scoped to this section and
does not change what is proved). -/

section ConcreteClaimProofs

attribute [local semireducible] Rat.ofScientific Rat.mul Rat.add Rat.sub Rat.inv

/-- Claim C1 (refuted by the code, code bug): a message routed to the
`update_balance` intent is supposed to yield a structured result dict and
never raise; instead, for the failing input "cập nhật tiền mặt 500k"
(classified `update_balance` with confidence 0.8 by the offline intent
analysis), `process_user_message` reaches the attribute lookup
`self.llm_processor._extract_balance_update_info` — a method
`ExpenseExtractor` in `llm_processor.py` does not define (it was renamed
`process_balance_update`; only `llm_processor_backup.py` has the old
name) — so an `AttributeError` escapes, whatever the three
database-backed handlers do. -/
theorem c1_update_balance_route_raises_attribute_error
    (handleEntry handleDeletion handleStats : String → ProcResult) :
    process_user_message_offline handleEntry handleDeletion handleStats
      "cập nhật tiền mặt 500k"
      = .error (.attributeError "_extract_balance_update_info") := by
  rfl

/-- Claim C2 counterexample: on the fallback path the input
"cập nhật tiền mặt 500k" does NOT produce a set operation assigning
`cash_balance = 500000` (bare "cập nhật" is not among the set markers —
only "cập nhật lại" is — so the add branch is taken). -/
theorem c2_input_not_parsed_as_set_operation :
    fallback_balance_update "cập nhật tiền mặt 500k"
      ≠ some { cash_balance := some 500000 } := by
  decide

/-- Claim C2 (amended): on the fallback path, "cập nhật tiền mặt 500k"
produces an add/adjust balance update assigning `cash_amount = +500000`
(positive because "cập nhật" is an income-direction keyword), with the
set-operation fields and the bank fields unset. -/
theorem c2_amended_add_operation_cash_amount :
    fallback_balance_update "cập nhật tiền mặt 500k"
      = some { cash_amount := some 500000 } := by
  decide

/-- Claim C3 (refuted by the code, code bug): the normalizer is supposed
to map "<n>000" to the literal full value n·1000; the pattern
`(\d+)000\b` instead captures only the digits before the trailing zeros
and stores `float(group(1))`, so "ăn phở 35000" yields amount 35 — three
orders of magnitude off and inconsistent with every other use of amounts
as full currency units.  Also, the expense-path pattern list has no
"triệu" pattern, so "<n> triệu" yields 0 there, while the k pattern and
the balance-path "triệu" pattern behave as specified. -/
theorem c3_thousand_suffix_digits_dropped :
    (fallback_extraction "ăn phở 35000").price = 35
    ∧ (fallback_extraction "ăn phở 35 triệu").price = 0
    ∧ (fallback_extraction "ăn phở 35k").price = 35000
    ∧ fallback_balance_update "cập nhật tiền mặt 2 triệu"
        = some { cash_amount := some 2000000 } := by
  decide

/-- Claim C4 counterexample: the message "mua cà phê 25k ck nhưng trả
tiền mặt" literally contains "ck", yet fallback extraction classifies the
account as cash ("ck" is in no keyword list, and "tiền mặt" wins), and
the model-path validation leaves a model-provided "cash" untouched (the
re-derivation runs only for values outside {cash, account}). -/
theorem c4_ck_message_yields_cash :
    isSubstr "ck".toList "mua cà phê 25k ck nhưng trả tiền mặt".toList = true
    ∧ (fallback_extraction "mua cà phê 25k ck nhưng trả tiền mặt").account_type
        = "cash"
    ∧ (validate_and_fix_llm_result
        { food_item := "cà phê", price := some 25000, meal_time := none,
          transaction_type := some "expense", account_type := some "cash",
          confidence := some 0.9 }
        "mua cà phê 25k ck nhưng trả tiền mặt").account_type = "cash" := by
  decide

/-- Claim C5 counterexample: after the availability flag is demoted, the
delete-criteria extraction takes the rule-based path but its result dict
carries no `offline_mode`/degraded key at all — so it is not "marked
degraded = true". -/
theorem c5_delete_result_lacks_degraded_flag :
    ¬ ((extract_delete_info false false .raises "xóa cà phê").1.offline_mode
        = some true) := by
  decide

/-- Claim C6 counterexample: a model failure during delete extraction
(flag up, handle live, call raises) does NOT demote the availability
flag — the handler at llm_processor.py:446-448 only falls back. -/
theorem c6_delete_model_failure_keeps_flag :
    ¬ ((extract_delete_info true true .raises "xóa phở").2 = false) := by
  decide

/-- Claim C7 counterexample: a model intent response with confidence 1.0
is returned as exactly 1.0 — the model-path clamp is `[0.0, 1.0]`, not
`[0.0, 0.95]`, and 1 is attainable. -/
theorem c7_model_intent_confidence_reaches_one :
    (parse_intent_response
      (some { intent := "add_expense", confidence := some 1, analysis := none })
      "m").confidence = 1
    ∧ ¬ ((parse_intent_response
        (some { intent := "add_expense", confidence := some 1, analysis := none })
        "m").confidence ≤ 19/20) := by
  decide

/-- Claim C9 counterexample: on the fallback path a message with no price
pattern ("ăn phở") yields amount 0, not an amount strictly greater than
zero. -/
theorem c9_fallback_amount_zero_on_priceless_message :
    (fallback_extraction "ăn phở").price = 0
    ∧ ¬ (0 < (fallback_extraction "ăn phở").price) := by
  decide

end ConcreteClaimProofs

/-- Claim C4 (amended): a message literally containing "chuyển khoản"
always gets `account_kind = bank` ("account"): the fallback checks the
account-keyword list before the cash list, and the model-path
re-derivation — which runs only when the model value is outside
{cash, account} — uses the same keyword.  Bare "ck" carries no such
guarantee (see the counterexample). -/
theorem c4_amended_chuyen_khoan_forces_account (msg : String) (raw : RawExpense)
    (h : isSubstr "chuyển khoản".toList msg.toList = true)
    (hraw : raw.account_type.getD "cash" ∉ (["cash", "account"] : List String)) :
    (fallback_extraction msg).account_type = "account"
    ∧ (validate_and_fix_llm_result raw msg).account_type = "account" := by
  have hlow : isSubstr "chuyển khoản".toList (pyLower msg.toList) = true :=
    isSubstr_pyLower _ msg (by decide) h
  have hany1 : containsAny fbAccountKws (pyLower msg.toList) = true :=
    containsAny_of_mem _ _ "chuyển khoản" (by decide) hlow
  have hany2 : containsAny vAccountKws (pyLower msg.toList) = true :=
    containsAny_of_mem _ _ "chuyển khoản" (by decide) hlow
  have hneg : ¬(raw.account_type.getD "cash" = "cash"
      ∨ raw.account_type.getD "cash" = "account") := by
    simpa using hraw
  constructor
  · show fb_account_type (pyLower msg.toList) = "account"
    unfold fb_account_type
    rw [if_pos hany1]
  · show v_acct raw.account_type msg = "account"
    unfold v_acct
    rw [if_neg hneg, if_pos hany2]

/-- Witness for the amended claim C4, at the input
"chuyển khoản 50k trả tiền mặt" and a model output with the invalid
account value "bank". -/
theorem c4_amended_chuyen_khoan_forces_account_witness :
    isSubstr "chuyển khoản".toList "chuyển khoản 50k trả tiền mặt".toList = true
    ∧ ((fallback_extraction "chuyển khoản 50k trả tiền mặt").account_type
         = "account"
      ∧ (validate_and_fix_llm_result
          { food_item := "x", price := some 1, meal_time := none,
            transaction_type := none, account_type := some "bank",
            confidence := none }
          "chuyển khoản 50k trả tiền mặt").account_type = "account") :=
  ⟨by decide, c4_amended_chuyen_khoan_forces_account _ _ (by decide) (by decide)⟩

/-- Claim C5 (amended): once the availability flag is down, intent
analysis and expense extraction return results with `offline_mode = true`
whatever the instance state and call outcome; an extractor constructed
after demotion has no LLM handle; delete and statistics extraction on a
handle-less instance take the rule-based path but their results carry no
offline/degraded key (`offline_mode = none`), and the balance fallback
dict has no such key either. -/
theorem c5_amended_degraded_flag_scope (msg : String) (h e : Bool)
    (oi : LLMOutcome RawIntent) (oe : LLMOutcome RawExpense)
    (od : LLMOutcome RawDelete) (os : LLMOutcome RawStats)
    (ob : LLMOutcome RawBalance) :
    (analyze_intent false h oi msg).1.offline_mode = some true
    ∧ (extract_expense_info false h oe msg).1.offline_mode = some true
    ∧ expense_extractor_init false e = (false, false)
    ∧ (extract_delete_info false false od msg).1.offline_mode = none
    ∧ (extract_statistics_info false false os msg).1.offline_mode = none
    ∧ process_balance_update false false ob msg = (fallback_balance_update msg, false) :=
  ⟨rfl, rfl, rfl, rfl, fallback_statistics_offline_none msg, rfl⟩

/-- Claim C6 (amended): only intent analysis and expense extraction demote
the process-wide flag when their model call raises; delete, statistics
and balance model-call failures fall back for that call alone and leave
the flag up; malformed (unparseable) output never demotes; and delete
extraction on an instance with a live handle ignores the flag entirely
(it consults only `self.llm`). -/
theorem c6_amended_demotion_only_intent_and_expense (msg : String)
    (r : Option RawDelete) :
    (analyze_intent true true .raises msg).2 = false
    ∧ (extract_expense_info true true .raises msg).2 = false
    ∧ (extract_delete_info true true .raises msg).2 = true
    ∧ (extract_statistics_info true true .raises msg).2 = true
    ∧ (process_balance_update true true .raises msg).2 = true
    ∧ (analyze_intent true true (.returns none) msg).2 = true
    ∧ (extract_expense_info true true (.returns none) msg).2 = true
    ∧ (extract_delete_info false true (.returns r) msg).1
        = parse_delete_response r msg :=
  ⟨rfl, rfl, rfl, rfl, rfl, rfl, rfl, rfl⟩

/-- Claim C7 (amended): model-sourced confidences are clamped to
`[0.0, 1.0]` (so exactly 0 and exactly 1 are attainable, contrary to the
original claim's 0.95 ceiling), while the rule-based producers stay
within `[0.2, 0.9]`: the expense fallback by its final clamp, the intent
fallback by its constants (0.2–0.85), the delete fallback by its constant
0.4, and the statistics fallback by its constants (0.6–0.9). -/
theorem c7_amended_confidence_clamp_bounds (ri : Option RawIntent)
    (re : RawExpense) (msg : String) :
    (0 ≤ (parse_intent_response ri msg).confidence
      ∧ (parse_intent_response ri msg).confidence ≤ 1)
    ∧ (0 ≤ (validate_and_fix_llm_result re msg).confidence
      ∧ (validate_and_fix_llm_result re msg).confidence ≤ 1)
    ∧ (0.2 ≤ (fallback_extraction msg).confidence
      ∧ (fallback_extraction msg).confidence ≤ 0.9)
    ∧ (0.2 ≤ (fallback_intent_analysis msg).confidence
      ∧ (fallback_intent_analysis msg).confidence ≤ 0.9)
    ∧ (0.2 ≤ (fallback_delete_extraction msg).confidence
      ∧ (fallback_delete_extraction msg).confidence ≤ 0.9)
    ∧ (0.2 ≤ (fallback_statistics_extraction msg).confidence
      ∧ (fallback_statistics_extraction msg).confidence ≤ 0.9) := by
  have hi := fallback_intent_conf_bounds msg
  refine ⟨parse_intent_conf_bounds ri msg,
    ⟨clamp01_nonneg _, clamp01_le_one _⟩,
    fallback_extraction_conf_bounds msg,
    ⟨hi.1, by linarith [hi.2]⟩,
    ?_,
    fallback_statistics_conf_bounds msg⟩
  rw [fallback_delete_conf]
  constructor <;> norm_num

/-- Claim C8 (confirmed): when the stripped message is the empty string or
one of the generic delete markers, the delete handler bypasses extraction
entirely — the decision is the same for every extraction function — and
short-circuits to deleting the most recent transaction with confidence
fixed at exactly 1. -/
theorem c8_generic_delete_marker_shortcut (extract : String → DeleteResult)
    (msg : String)
    (h : pyStrip msg.toList ∈ ["".toList, "xóa".toList, "gần nhất".toList,
      "recent".toList, "last".toList, "latest".toList]) :
    handle_expense_deletion extract msg = .mostRecent 1 := by
  have hc : deleteShortcutCond msg = true := by
    simp only [deleteShortcutCond]
    simp only [List.mem_cons, List.not_mem_nil, or_false] at h
    rcases h with h | h | h | h | h | h <;> rw [h] <;> decide
  unfold handle_expense_deletion
  rw [hc]
  simp

/-- Witness for claim C8, at the message " xóa " (whose strip is the
marker "xóa") and the rule-based extraction function. -/
theorem c8_generic_delete_marker_shortcut_witness :
    pyStrip " xóa ".toList ∈ ["".toList, "xóa".toList, "gần nhất".toList,
      "recent".toList, "last".toList, "latest".toList]
    ∧ handle_expense_deletion fallback_delete_extraction " xóa "
        = .mostRecent 1 :=
  ⟨by decide,
   c8_generic_delete_marker_shortcut fallback_delete_extraction " xóa " (by decide)⟩

/-- Claim C9 (amended): the description is never empty on either path (the
fallback ends in the "thu nhập"/"chi tiêu" placeholders, the model-path
validation in "giao dịch"), and on the model path the amount is always
strictly positive (re-scan, then default 1000); the fallback amount,
however, is 0 whenever no price pattern matches (see the
counterexample). -/
theorem c9_amended_description_nonempty_model_amount_positive (msg : String)
    (raw : RawExpense) :
    (fallback_extraction msg).food_item ≠ ""
    ∧ (validate_and_fix_llm_result raw msg).food_item ≠ ""
    ∧ 0 < (validate_and_fix_llm_result raw msg).price := by
  refine ⟨?_, ?_, v_price_pos raw.price msg⟩
  · show String.mk (fb_food msg (pyLower msg.toList)
      (fb_transaction_type (pyLower msg.toList))).1 ≠ ""
    rw [Ne, stringMk_eq_empty_iff]
    exact fb_food_ne_nil msg _ _
  · show String.mk (v_food raw.food_item msg) ≠ ""
    rw [Ne, stringMk_eq_empty_iff]
    exact v_food_ne_nil raw.food_item msg

/-- Claim C10 (confirmed): the rule-based delete extraction returns
confidence exactly 0.4 for every message, and since the delete handler
rejects only strictly below 0.4, the offline delete path is never
rejected for low confidence. -/
theorem c10_offline_delete_confidence_always_accepted (msg : String) :
    (fallback_delete_extraction msg).confidence = 0.4
    ∧ ∀ c, handle_expense_deletion fallback_delete_extraction msg
        ≠ .reject c := by
  refine ⟨rfl, ?_⟩
  intro c
  unfold handle_expense_deletion
  dsimp only
  split_ifs with h1 h2
  · simp
  · rw [fallback_delete_conf] at h2
    norm_num at h2
  · simp

end ExpenseApp
